import Mathlib

/-!
Verification development for the connection-supervision subsystem of
prometheus-dyson (src/main.py).

The Python code is shallowly embedded: every method of DeviceWrapper and
ConnectionManager becomes a pure Lean function that takes the observable
inputs the method reads (the live transport flag is_connected, the outcome
of the underlying library call) and returns the ordered list of external
effects the method performs (logging, library calls, timers it arms,
callbacks it invokes).  Timer proliferation and connection state over time
are modelled separately by a small event-step system (SysState / step).
-/

namespace DysonProm

/-- A config.Device record as read by src/main.py: display name, serial,
credentials and product type (spec section 3, Device Record). -/
structure Device where
  name : String
  serial : String
  credentials : String
  product_type : String
deriving DecidableEq, Repr

/-- Message kinds delivered by the transport (libdyson.MessageType).  The code
only compares against STATE and ENVIRONMENTAL; every other kind is carried by
the catch-all constructor. -/
inductive MessageType where
  | STATE
  | ENVIRONMENTAL
  | other (tag : Nat)
deriving DecidableEq, BEq, Repr

/-- Outcome of a libdyson.connect(host) call: either the session opens or a
DysonConnectTimeout is raised (src/main.py lines 66-73). -/
inductive ConnectResult where
  | success
  | timeout
deriving DecidableEq, Repr

/-- Python exceptions relevant to the embedded code paths. -/
inductive PyExc where
  | attributeError
  | otherError
deriving DecidableEq, Repr

/-- The action a threading.Timer is armed with. -/
inductive TimerAction where
  /-- Timer(retry_on_timeout_secs, self.connect, args=[host]): a later call of
  connect with the given host and retry interval. -/
  | retryConnect (host : String) (retry_secs : Nat)
  /-- Timer(self._environment_refresh_secs, self._timer_callback). -/
  | pollCallback
deriving DecidableEq, Repr

/-- One observable external effect of a method of src/main.py, in program
order. -/
inductive Effect where
  | logDebug
  | logInfo
  | logError
  | logFatal
  | logException
  /-- self.libdyson.connect(host) was invoked. -/
  | connectAttempt (host : String)
  /-- threading.Timer(delay_secs, action).start(). -/
  | scheduleTimer (delay_secs : Nat) (action : TimerAction)
  /-- self.libdyson.disconnect(). -/
  | disconnect
  /-- self.libdyson.request_environmental_data() was invoked. -/
  | requestEnvironmentalData
  /-- self._discovery.stop_discovery(). -/
  | stopDiscovery
  /-- self._discovery.start_discovery(). -/
  | startDiscovery
  /-- self._discovery.register_device(device.libdyson, callback). -/
  | registerDevice
  /-- device.libdyson.add_message_listener(callback). -/
  | addMessageListener
  /-- self._update_fn(name, handle, is_state, is_environmental); the handle is
  identified by the device serial. -/
  | updateFn (name : String) (handle_serial : String)
      (is_state : Bool) (is_environmental : Bool)
  /-- prometheus_client.start_http_server(port). -/
  | startHttpServer (port : Nat)
deriving DecidableEq, Repr

/-- Number of occurrences of the effect e in an effect list. -/
def countEff (e : Effect) : List Effect → Nat
  | [] => 0
  | x :: xs => (if x = e then 1 else 0) + countEff e xs

/-- Number of effects satisfying the Boolean discriminator p. -/
def countBy (p : Effect → Bool) : List Effect → Nat
  | [] => 0
  | x :: xs => (if p x then 1 else 0) + countBy p xs

/-- Discriminator: any armed timer. -/
def isScheduleTimer : Effect → Bool
  | .scheduleTimer _ _ => true
  | _ => false

/-- Discriminator: an armed connect-retry timer. -/
def isRetryTimer : Effect → Bool
  | .scheduleTimer _ (.retryConnect _ _) => true
  | _ => false

/-- Discriminator: a logged error. -/
def isLogError : Effect → Bool
  | .logError => true
  | _ => false

/-- Discriminator: any invocation of the Metrics Sink update function. -/
def isUpdateFnEffect : Effect → Bool
  | .updateFn _ _ _ _ => true
  | _ => false

/-- Discriminator: an update with both classification flags true. -/
def isUpdateBothFlags : Effect → Bool
  | .updateFn _ _ true true => true
  | _ => false

/-- The default value of the retry_on_timeout_secs parameter of
DeviceWrapper.connect (src/main.py line 55). -/
def connectDefaultRetrySecs : Nat := 30

/-- DeviceWrapper (src/main.py lines 22-98): the wrapped config.Device and the
environmental refresh period (constructor default 30). -/
structure DeviceWrapper where
  configDevice : Device
  environmentRefreshSecs : Nat
deriving DecidableEq, Repr

/-- Property DeviceWrapper.name (line 41). -/
def DeviceWrapper.name (w : DeviceWrapper) : String :=
  w.configDevice.name

/-- Property DeviceWrapper.serial (line 46). -/
def DeviceWrapper.serial (w : DeviceWrapper) : String :=
  w.configDevice.serial

/-- DeviceWrapper._refresh_timer (lines 79-82): arms one poll timer with the
wrapper's refresh period. -/
def DeviceWrapper.refresh_timer (w : DeviceWrapper) : List Effect :=
  [.scheduleTimer w.environmentRefreshSecs .pollCallback]

/-- DeviceWrapper.connect (lines 55-73).  Inputs: the live transport flag
self.is_connected at entry, the outcome of self.libdyson.connect(host), the
host, and retry_on_timeout_secs.  On timeout the armed timer is
Timer(retry_on_timeout_secs, self.connect, args=[host]): args carries only the
host, so the re-invocation will use the parameter default
connectDefaultRetrySecs. -/
def DeviceWrapper.connect (w : DeviceWrapper) (is_connected : Bool)
    (res : ConnectResult) (host : String) (retry_on_timeout_secs : Nat) :
    List Effect :=
  if is_connected then
    [.logInfo]
  else
    match res with
    | .success => .connectAttempt host :: w.refresh_timer
    | .timeout =>
        [.connectAttempt host, .logError,
          .scheduleTimer retry_on_timeout_secs
            (.retryConnect host connectDefaultRetrySecs)]

/-- DeviceWrapper.disconnect (lines 75-77). -/
def DeviceWrapper.disconnect (_w : DeviceWrapper) : List Effect :=
  [.disconnect]

/-- DeviceWrapper._timer_callback (lines 84-94).  Inputs: the live transport
flag at firing time and the exception (if any) raised by
self.libdyson.request_environmental_data().  Only AttributeError is caught by
the try/except; any other exception propagates (Except.error). -/
def DeviceWrapper.timer_callback (w : DeviceWrapper) (is_connected : Bool)
    (req : Option PyExc) : Except PyExc (List Effect) :=
  if is_connected then
    match req with
    | none =>
        .ok ([.logDebug, .requestEnvironmentalData] ++ w.refresh_timer)
    | some PyExc.attributeError =>
        .ok ([.logDebug, .requestEnvironmentalData, .logError] ++
          w.refresh_timer)
    | some e => .error e
  else
    .ok [.logDebug]

/-- The effect list of a non-raising call, [] for a raising one. -/
def okEffects : Except PyExc (List Effect) → List Effect
  | .ok es => es
  | .error _ => []

/-- Python str.upper() of an ASCII device serial: character-wise uppercasing.
(Lean's own String.toUpper is the same map but is defined by well-founded
recursion over byte positions, which blocks kernel evaluation; serials are
ASCII, where the two agree with str.upper.) -/
def pyUpper (s : String) : String := ⟨s.data.map Char.toUpper⟩

/-- ConnectionManager (src/main.py lines 101-172): the only manager field the
embedded methods read is the serial-to-address table self._hosts. -/
structure ConnectionManager where
  hosts : List (String × String)
deriving DecidableEq, Repr

/-- ConnectionManager._add_device (lines 122-146).  Inputs: the device
wrapper, its live transport flag, the outcome of a connect attempt should one
be made, and the add_listener argument. -/
def ConnectionManager.add_device (cm : ConnectionManager) (device : DeviceWrapper)
    (is_connected : Bool) (res : ConnectResult) (add_listener : Bool) :
    List Effect :=
  (if add_listener then [.addMessageListener] else []) ++
    match cm.hosts.lookup (pyUpper device.serial) with
    | some manual_ip =>
        .logInfo :: device.connect is_connected res manual_ip connectDefaultRetrySecs
    | none => [.logInfo, .registerDevice]

/-- ConnectionManager._discovery_callback (lines 148-156): logs and calls
device.connect(address) with the default retry interval. -/
def ConnectionManager.discovery_callback (device : DeviceWrapper)
    (is_connected : Bool) (res : ConnectResult) (address : String) :
    List Effect :=
  .logInfo :: device.connect is_connected res address connectDefaultRetrySecs

/-- ConnectionManager._device_callback (lines 158-172).  Inputs: the live
transport flag at dispatch time, the outcome of the connect attempt the
disconnect path may make inside _add_device, and the message.  In the
disconnect branch the code has just called device.disconnect(), so the
re-added device is passed with is_connected false. -/
def ConnectionManager.device_callback (cm : ConnectionManager)
    (device : DeviceWrapper) (is_connected : Bool) (res : ConnectResult)
    (message : MessageType) : List Effect :=
  .logDebug ::
    (if !is_connected then
      [.logInfo] ++ device.disconnect ++ [.stopDiscovery, .startDiscovery] ++
        cm.add_device device false res false
    else
      [.updateFn device.name device.serial
        (message == MessageType.STATE) (message == MessageType.ENVIRONMENTAL)])

/-- ConnectionManager.__init__ (lines 110-120): start discovery, then wrap and
add each configured device (fresh wrappers are not connected).  resOf gives
the outcome of the direct connect attempt made for a device with a manual
address. -/
def managerInit (hosts : List (String × String)) (devices : List Device)
    (resOf : Device → ConnectResult) : List Effect :=
  [.logInfo, .startDiscovery] ++
    (devices.map fun d =>
      ConnectionManager.add_device ⟨hosts⟩ ⟨d, 30⟩ false (resOf d) true).flatten

/-- config.Config as consumed by main (lines 218-231): the device list and the
manual-host table. -/
structure Config where
  devices : List Device
  hosts : List (String × String)
deriving DecidableEq, Repr

/-- How the process run ends. -/
inductive MainOutcome where
  | exitWith (code : Int)
  | runForever
deriving DecidableEq, Repr

/-- main (src/main.py lines 184-233) from argument validation onward.
Inputs: whether --log_level names a logging level, the loaded configuration
(none when config.Config raised), the per-device connect outcomes and the
port. -/
def main (log_level_valid : Bool) (cfgLoad : Option Config)
    (resOf : Device → ConnectResult) (port : Nat) :
    MainOutcome × List Effect :=
  if !log_level_valid then
    (.exitWith (-1), [])
  else
    match cfgLoad with
    | none => (.exitWith (-1), [.logException])
    | some cfg =>
        if cfg.devices.length = 0 then
          (.exitWith (-2), [.logFatal])
        else
          (.runForever,
            .startHttpServer port :: managerInit cfg.hosts cfg.devices resOf)

/-- The classification flags the spec assigns to each message kind (spec
section 8, Message classification).  Stated from the spec's words, for
comparison with the flags the code passes to updateFn. -/
def specMessageFlags : MessageType → Bool × Bool
  | .STATE => (true, false)
  | .ENVIRONMENTAL => (false, true)
  | .other _ => (false, false)

/-- A concrete device wrapper for concrete evaluations: serial abc, refresh
period 30. -/
def w0 : DeviceWrapper := ⟨⟨"Living Room", "abc", "cred", "438"⟩, 30⟩

theorem countEff_append (e : Effect) (xs ys : List Effect) :
    countEff e (xs ++ ys) = countEff e xs + countEff e ys := by
  induction xs with
  | nil => simp [countEff]
  | cons x xs ih => simp [countEff, ih]; omega

theorem countBy_append (p : Effect → Bool) (xs ys : List Effect) :
    countBy p (xs ++ ys) = countBy p xs + countBy p ys := by
  induction xs with
  | nil => simp [countBy]
  | cons x xs ih => simp [countBy, ih]; omega

/-- C5: calling connect on an already-connected supervisor only logs: the
effect list is exactly one info log, so no session is opened (no connect
attempt on any host) and no poll or retry timer is armed. -/
theorem c5_idempotent_connect (w : DeviceWrapper) (res : ConnectResult)
    (host : String) (r : Nat) :
    w.connect true res host r = [.logInfo] ∧
    countEff (.connectAttempt host) (w.connect true res host r) = 0 ∧
    countBy isScheduleTimer (w.connect true res host r) = 0 := by
  refine ⟨rfl, ?_, ?_⟩ <;>
    simp [DeviceWrapper.connect, countEff, countBy, isScheduleTimer]

/-- C10: a timed-out connect arms exactly one retry timer; the timer fires
after the caller-supplied interval r but re-invokes connect with only the
host, hence with the default 30-second interval, so when that retry times out
its own retry is scheduled after 30 seconds regardless of r. -/
theorem c10_retry_uses_default_interval (w : DeviceWrapper) (host : String)
    (r : Nat) :
    countBy isRetryTimer (w.connect false .timeout host r) = 1 ∧
    countEff (.scheduleTimer r (.retryConnect host 30))
      (w.connect false .timeout host r) = 1 ∧
    connectDefaultRetrySecs = 30 ∧
    countEff (.scheduleTimer 30 (.retryConnect host 30))
      (w.connect false .timeout host 30) = 1 := by
  refine ⟨?_, ?_, rfl, ?_⟩ <;>
    simp [DeviceWrapper.connect, connectDefaultRetrySecs, countEff, countBy,
      isRetryTimer]

/-- C2 counterexample: with retryIntervalSeconds = 10, the retry armed by a
timed-out connect re-invokes connect with the default interval 30, never with
the configured 10; and when that retry itself times out, its retry is
scheduled after 30 seconds, not after the configured 10 — refuting both that
the scheduled retry is of Connect(address, retryIntervalSeconds) and that
every subsequent timeout schedules its retry after the configured interval. -/
theorem c2_counterexample :
    countEff (.scheduleTimer 10 (.retryConnect "10.0.0.5" 10))
      (w0.connect false .timeout "10.0.0.5" 10) = 0 ∧
    countEff (.scheduleTimer 10 (.retryConnect "10.0.0.5" 30))
      (w0.connect false .timeout "10.0.0.5" 30) = 0 ∧
    countBy isRetryTimer (w0.connect false .timeout "10.0.0.5" 30) = 1 ∧
    countEff (.scheduleTimer 30 (.retryConnect "10.0.0.5" 30))
      (w0.connect false .timeout "10.0.0.5" 30) = 1 := by
  decide

/-- C2 (amended): on every timeout an error is logged and exactly one retry is
armed, firing after the caller-supplied interval; the armed call carries only
the host, so it re-invokes connect with the default 30-second interval, and
hence every retry after the first is scheduled after 30 seconds; a successful
connect arms no retry, ending the chain. -/
theorem c2_retry_liveness (w : DeviceWrapper) (host : String) (r : Nat) :
    countBy isLogError (w.connect false .timeout host r) = 1 ∧
    countBy isRetryTimer (w.connect false .timeout host r) = 1 ∧
    countEff (.scheduleTimer r (.retryConnect host connectDefaultRetrySecs))
      (w.connect false .timeout host r) = 1 ∧
    countEff (.scheduleTimer connectDefaultRetrySecs
        (.retryConnect host connectDefaultRetrySecs))
      (w.connect false .timeout host connectDefaultRetrySecs) = 1 ∧
    countBy isRetryTimer (w.connect false .success host r) = 0 := by
  refine ⟨?_, ?_, ?_, ?_, ?_⟩ <;>
    simp [DeviceWrapper.connect, DeviceWrapper.refresh_timer,
      connectDefaultRetrySecs, countEff, countBy, isRetryTimer, isLogError]

/-- C3: when the poll timer fires while still connected and the handle is
alive, exactly one environmental-data request is issued and exactly one poll
timer is re-armed with the same interval; when the handle has been torn down
concurrently (AttributeError), the callback returns normally — no exception
propagates — the failure is logged and the timer is still re-armed; when no
longer connected, the callback only logs: no request is issued and no timer is
re-armed. -/
theorem c3_poll_task (w : DeviceWrapper) (req : Option PyExc) :
    (w.timer_callback true none =
        .ok [.logDebug, .requestEnvironmentalData,
          .scheduleTimer w.environmentRefreshSecs .pollCallback] ∧
      countEff .requestEnvironmentalData
        (okEffects (w.timer_callback true none)) = 1 ∧
      countEff (.scheduleTimer w.environmentRefreshSecs .pollCallback)
        (okEffects (w.timer_callback true none)) = 1) ∧
    (w.timer_callback true (some .attributeError) =
        .ok [.logDebug, .requestEnvironmentalData, .logError,
          .scheduleTimer w.environmentRefreshSecs .pollCallback] ∧
      countBy isLogError
        (okEffects (w.timer_callback true (some .attributeError))) = 1 ∧
      countEff (.scheduleTimer w.environmentRefreshSecs .pollCallback)
        (okEffects (w.timer_callback true (some .attributeError))) = 1) ∧
    (w.timer_callback false req = .ok [.logDebug] ∧
      countEff .requestEnvironmentalData
        (okEffects (w.timer_callback false req)) = 0 ∧
      countBy isScheduleTimer (okEffects (w.timer_callback false req)) = 0) := by
  refine ⟨⟨rfl, ?_, ?_⟩, ⟨rfl, ?_, ?_⟩, ⟨rfl, ?_, ?_⟩⟩ <;>
    simp [DeviceWrapper.timer_callback, DeviceWrapper.refresh_timer, okEffects,
      countEff, countBy, isLogError, isScheduleTimer]

/-- C4: a message dispatched while connected produces exactly one log and one
updateFn invocation whose flags agree with the spec classification — a state
message gives (true, false), an environmental message gives (false, true), any
other kind gives (false, false) — and the two flags are never both true. -/
theorem c4_message_classification (cm : ConnectionManager) (w : DeviceWrapper)
    (res : ConnectResult) (m : MessageType) :
    cm.device_callback w true res m =
      [.logDebug, .updateFn w.name w.serial
        (specMessageFlags m).1 (specMessageFlags m).2] ∧
    ((specMessageFlags m).1 && (specMessageFlags m).2) = false ∧
    countBy isUpdateBothFlags (cm.device_callback w true res m) = 0 := by
  cases m <;> exact ⟨rfl, rfl, rfl⟩

/-- Connect never performs manager-level effects: it neither disconnects, nor
touches discovery, nor adds a listener, nor calls the update function. -/
theorem connect_no_manager_effects (w : DeviceWrapper) (b : Bool)
    (res : ConnectResult) (host : String) (r : Nat) :
    countEff .disconnect (w.connect b res host r) = 0 ∧
    countEff .stopDiscovery (w.connect b res host r) = 0 ∧
    countEff .startDiscovery (w.connect b res host r) = 0 ∧
    countEff .addMessageListener (w.connect b res host r) = 0 ∧
    countEff .registerDevice (w.connect b res host r) = 0 ∧
    countBy isUpdateFnEffect (w.connect b res host r) = 0 := by
  cases b <;> cases res <;>
    simp [DeviceWrapper.connect, DeviceWrapper.refresh_timer, countEff,
      countBy, isUpdateFnEffect]

/-- The disconnect branch of the dispatch callback, before resolving the
re-add. -/
theorem device_callback_disconnected (cm : ConnectionManager)
    (w : DeviceWrapper) (res : ConnectResult) (m : MessageType) :
    cm.device_callback w false res m =
      [.logDebug, .logInfo, .disconnect, .stopDiscovery, .startDiscovery] ++
        cm.add_device w false res false := by
  simp [ConnectionManager.device_callback, DeviceWrapper.disconnect]

/-- A manager whose host table maps serial ABC to a manual address. -/
def cmManual : ConnectionManager := ⟨[("ABC", "10.0.0.5")]⟩

/-- C1 counterexample: for a device with a host-override entry (serial abc,
uppercased to ABC, mapped to 10.0.0.5), a dispatch observed with is_connected
false disconnects and restarts discovery but registers nothing with discovery:
the re-add attempts a direct connection to the configured address instead —
refuting the claimed exactly-one re-registration with discovery. -/
theorem c1_counterexample :
    countEff .registerDevice
      (cmManual.device_callback w0 false .success .STATE) = 0 ∧
    countEff .disconnect
      (cmManual.device_callback w0 false .success .STATE) = 1 ∧
    countEff (.connectAttempt "10.0.0.5")
      (cmManual.device_callback w0 false .success .STATE) = 1 := by
  decide

/-- C1 (amended): a dispatch observed with is_connected false performs exactly
one disconnect, exactly one discovery stop immediately followed by exactly one
start, re-adds the device without installing a second message listener, and
never invokes updateFn; the re-add registers the device with discovery exactly
once when it has no host-override entry, while for a device with an override
it instead attempts a direct connection to the configured address and
registers nothing with discovery. -/
theorem c1_disconnect_convergence (cm : ConnectionManager) (w : DeviceWrapper)
    (res : ConnectResult) (m : MessageType) :
    (cm.hosts.lookup (pyUpper w.serial) = none →
      cm.device_callback w false res m =
        [.logDebug, .logInfo, .disconnect, .stopDiscovery, .startDiscovery,
          .logInfo, .registerDevice]) ∧
    (∀ ip, cm.hosts.lookup (pyUpper w.serial) = some ip →
      cm.device_callback w false res m =
        [.logDebug, .logInfo, .disconnect, .stopDiscovery, .startDiscovery,
          .logInfo] ++ w.connect false res ip connectDefaultRetrySecs ∧
      countEff .registerDevice (cm.device_callback w false res m) = 0) ∧
    countEff .disconnect (cm.device_callback w false res m) = 1 ∧
    countEff .stopDiscovery (cm.device_callback w false res m) = 1 ∧
    countEff .startDiscovery (cm.device_callback w false res m) = 1 ∧
    countEff .addMessageListener (cm.device_callback w false res m) = 0 ∧
    countBy isUpdateFnEffect (cm.device_callback w false res m) = 0 := by
  rw [device_callback_disconnected]
  cases h : cm.hosts.lookup (pyUpper w.serial) with
  | none =>
      have ha : cm.add_device w false res false = [.logInfo, .registerDevice] := by
        simp [ConnectionManager.add_device, h]
      rw [ha]
      refine ⟨fun _ => rfl, ?_, ?_, ?_, ?_, ?_, ?_⟩
      · intro ip hip
        exact Option.noConfusion hip
      all_goals simp [countEff, countBy, isUpdateFnEffect]
  | some ip =>
      have ha : cm.add_device w false res false =
          .logInfo :: w.connect false res ip connectDefaultRetrySecs := by
        simp [ConnectionManager.add_device, h]
      rw [ha]
      obtain ⟨h1, h2, h3, h4, h5, h6⟩ :=
        connect_no_manager_effects w false res ip connectDefaultRetrySecs
      refine ⟨?_, ?_, ?_, ?_, ?_, ?_, ?_⟩
      · intro hn
        exact Option.noConfusion hn
      · intro ip2 hip2
        obtain rfl : ip = ip2 := Option.some.inj hip2
        refine ⟨by simp, ?_⟩
        simp [countEff_append, countEff, h5]
      all_goals
        simp [countEff_append, countBy_append, countEff, countBy,
          isUpdateFnEffect, h1, h2, h3, h4, h5, h6]

/-- Witness for c1_disconnect_convergence: a device with an empty host table
has no override entry, and its disconnect dispatch ends in a discovery
re-registration. -/
theorem c1_disconnect_convergence_witness :
    (⟨[]⟩ : ConnectionManager).hosts.lookup (pyUpper w0.serial) = none ∧
    ConnectionManager.device_callback ⟨[]⟩ w0 false .success .STATE =
      [.logDebug, .logInfo, .disconnect, .stopDiscovery, .startDiscovery,
        .logInfo, .registerDevice] :=
  ⟨rfl, (c1_disconnect_convergence ⟨[]⟩ w0 .success .STATE).1 rfl⟩

/-- Each add_device call with add_listener true installs exactly one message
listener. -/
theorem add_device_listener_count (cm : ConnectionManager) (w : DeviceWrapper)
    (b : Bool) (res : ConnectResult) :
    countEff .addMessageListener (cm.add_device w b res true) = 1 := by
  cases h : cm.hosts.lookup (pyUpper w.serial) with
  | none => simp [ConnectionManager.add_device, h, countEff_append, countEff]
  | some ip =>
      obtain ⟨-, -, -, h4, -, -⟩ :=
        connect_no_manager_effects w b res ip connectDefaultRetrySecs
      simp [ConnectionManager.add_device, h, countEff_append, countEff, h4]

/-- Across manager initialisation, the number of installed message listeners
equals the number of configured devices. -/
theorem managerInit_listener_count (hosts : List (String × String))
    (devices : List Device) (resOf : Device → ConnectResult) :
    countEff .addMessageListener (managerInit hosts devices resOf) =
      devices.length := by
  have key : ∀ ds : List Device,
      countEff .addMessageListener
        ((ds.map fun d =>
          ConnectionManager.add_device ⟨hosts⟩ ⟨d, 30⟩ false (resOf d) true).flatten) =
        ds.length := by
    intro ds
    induction ds with
    | nil => simp [countEff]
    | cons d ds ih =>
        simp [List.map_cons, List.flatten_cons, countEff_append, ih,
          add_device_listener_count]
        omega
  simp [managerInit, countEff_append, countEff, key]

/-- C8: manager initialisation installs exactly one message listener per
configured device; a device whose uppercased serial is in the host table is
connected directly to the configured address, otherwise it is registered with
discovery; and the discovery callback, invoked with an address, logs and calls
connect on exactly that address. -/
theorem c8_startup_wiring (hosts : List (String × String))
    (devices : List Device) (resOf : Device → ConnectResult)
    (cm : ConnectionManager) (w : DeviceWrapper) (res : ConnectResult)
    (address : String) :
    countEff .addMessageListener (managerInit hosts devices resOf) =
      devices.length ∧
    (∀ ip, cm.hosts.lookup (pyUpper w.serial) = some ip →
      cm.add_device w false res true =
        [.addMessageListener, .logInfo] ++
          w.connect false res ip connectDefaultRetrySecs) ∧
    (cm.hosts.lookup (pyUpper w.serial) = none →
      cm.add_device w false res true =
        [.addMessageListener, .logInfo, .registerDevice]) ∧
    ConnectionManager.discovery_callback w false res address =
      .logInfo :: w.connect false res address connectDefaultRetrySecs := by
  refine ⟨managerInit_listener_count hosts devices resOf, ?_, ?_, rfl⟩
  · intro ip hip
    simp [ConnectionManager.add_device, hip]
  · intro hn
    simp [ConnectionManager.add_device, hn]

/-- Witness for c8_startup_wiring: a device whose uppercased serial ABC is
mapped to 10.0.0.5 is connected directly to that address. -/
theorem c8_startup_wiring_witness :
    cmManual.hosts.lookup (pyUpper w0.serial) = some "10.0.0.5" ∧
    cmManual.add_device w0 false .success true =
      [.addMessageListener, .logInfo] ++
        w0.connect false .success "10.0.0.5" connectDefaultRetrySecs :=
  ⟨by decide,
    (c8_startup_wiring [] [] (fun _ => ConnectResult.success) cmManual w0
      .success "10.0.0.9").2.1 "10.0.0.5" (by decide)⟩

/-- Discriminator: the HTTP metrics server being started. -/
def isStartHttpServer : Effect → Bool
  | .startHttpServer _ => true
  | _ => false

/-- C7: when the configuration loads but lists no devices, main exits with
status -2 — distinct from the -1 used for a configuration load failure — and
by then it has only logged: discovery has not been started, no device has been
registered and the HTTP server has not been started. -/
theorem c7_no_devices_exit (cfg : Config) (resOf : Device → ConnectResult)
    (port : Nat) (h : cfg.devices = []) :
    (main true (some cfg) resOf port).1 = .exitWith (-2) ∧
    (main true none resOf port).1 = .exitWith (-1) ∧
    (-2 : Int) ≠ (-1 : Int) ∧
    (main true (some cfg) resOf port).2 = [.logFatal] ∧
    countEff .startDiscovery (main true (some cfg) resOf port).2 = 0 ∧
    countEff .registerDevice (main true (some cfg) resOf port).2 = 0 ∧
    countBy isStartHttpServer (main true (some cfg) resOf port).2 = 0 := by
  refine ⟨?_, rfl, by decide, ?_, ?_, ?_, ?_⟩ <;>
    simp [main, h, countEff, countBy, isStartHttpServer]

/-- Witness for c7_no_devices_exit: an empty configured device list makes main
exit with status -2. -/
theorem c7_no_devices_exit_witness :
    (⟨[], []⟩ : Config).devices = [] ∧
    (main true (some ⟨[], []⟩) (fun _ => ConnectResult.success) 8091).1 =
      .exitWith (-2) :=
  ⟨rfl, (c7_no_devices_exit ⟨[], []⟩ (fun _ => ConnectResult.success) 8091 rfl).1⟩

/-- Per-device state over time for the timer model: the live transport flag
and the numbers of armed poll timers (threading.Timer over _timer_callback)
and armed connect-retry timers.  The code retains no handle to a started
Timer, so an armed timer leaves the count only by firing — there is no
cancellation path. -/
structure SysState where
  connected : Bool
  pendingPolls : Nat
  pendingRetries : Nat
deriving DecidableEq, Repr

/-- One run of DeviceWrapper.connect (lines 55-73) over the state: a no-op
when already connected; on success the session opens and _refresh_timer arms
one poll timer; on timeout one retry timer is armed. -/
def connectStep (s : SysState) (res : ConnectResult) : SysState :=
  if s.connected then
    s
  else
    match res with
    | .success =>
        { connected := true, pendingPolls := s.pendingPolls + 1,
          pendingRetries := s.pendingRetries }
    | .timeout => { s with pendingRetries := s.pendingRetries + 1 }

/-- The asynchronous events that mutate one device's state. -/
inductive Event where
  /-- the discovery callback fires with an address and calls connect
  (lines 148-156). -/
  | discovered (res : ConnectResult)
  /-- an armed retry timer fires and re-invokes connect (lines 72-73). -/
  | retryFires (res : ConnectResult)
  /-- an armed poll timer fires _timer_callback (lines 84-94). -/
  | pollFires
  /-- the underlying MQTT transport drops: is_connected becomes false.  The
  dispatch path of _device_callback exists exactly to detect this (line 160
  and spec section 4.1 rationale). -/
  | transportDrop
  /-- an inbound message is dispatched to _device_callback (lines 158-172). -/
  | message (res : ConnectResult)
deriving DecidableEq, Repr

/-- One event step.  manual_ip says whether the device has a host-override
entry, fixing the branch _add_device takes when the disconnect path re-adds
the device: with an override it calls connect at once (line 141), without one
it only re-registers with discovery (line 146), which changes no state
here. -/
def step (manual_ip : Bool) (s : SysState) : Event → SysState
  | .discovered res => connectStep s res
  | .retryFires res =>
      if s.pendingRetries = 0 then
        s
      else
        connectStep { s with pendingRetries := s.pendingRetries - 1 } res
  | .pollFires =>
      if s.pendingPolls = 0 then
        s
      else
        -- the fired timer is spent; _timer_callback re-arms itself when still
        -- connected (line 92) and otherwise only logs (lines 93-94)
        if s.connected then
          { s with pendingPolls := s.pendingPolls - 1 + 1 }
        else
          { s with pendingPolls := s.pendingPolls - 1 }
  | .transportDrop => { s with connected := false }
  | .message res =>
      if s.connected then
        s
      else
        -- disconnect branch of _device_callback: device.disconnect() leaves
        -- the flag false, discovery restarts, and _add_device re-adds
        if manual_ip then connectStep s res else s

/-- Run a sequence of events from a state. -/
def runEvents (manual_ip : Bool) (s : SysState) : List Event → SysState
  | [] => s
  | e :: es => runEvents manual_ip (step manual_ip s e) es

/-- The initial state of a freshly wrapped device: not connected, no timers
armed. -/
def initState : SysState := ⟨false, 0, 0⟩

/-- The direction of the claimed invariant that the code does maintain:
whenever the device is connected, at least one poll timer is armed. -/
def pollInvariant (s : SysState) : Prop :=
  s.connected = true → 1 ≤ s.pendingPolls

theorem pollInvariant_connectStep (s : SysState) (res : ConnectResult)
    (h : pollInvariant s) : pollInvariant (connectStep s res) := by
  unfold pollInvariant connectStep at *
  cases hc : s.connected with
  | true => simpa [hc] using h hc
  | false => cases res <;> simp [hc] at *

theorem pollInvariant_step (manual_ip : Bool) (s : SysState) (e : Event)
    (h : pollInvariant s) : pollInvariant (step manual_ip s e) := by
  cases e with
  | discovered res => exact pollInvariant_connectStep s res h
  | retryFires res =>
      unfold step
      by_cases hr : s.pendingRetries = 0
      · simpa [hr] using h
      · simp only [hr, if_false]
        exact pollInvariant_connectStep _ res h
  | pollFires =>
      unfold step pollInvariant at *
      by_cases hp : s.pendingPolls = 0
      · simpa [hp] using h
      · cases hc : s.connected <;> simp [hp, hc] at *
  | transportDrop =>
      intro hc
      simp [step] at hc
  | message res =>
      unfold step
      cases hc : s.connected with
      | true => simpa [hc, pollInvariant] using h
      | false =>
          by_cases hm : manual_ip
          · simpa [hc, hm] using pollInvariant_connectStep s res h
          · simp [hc, hm, pollInvariant]

/-- C6 counterexample: from the initial state of a device with a manual
address, concrete event sequences reach (a) a state with one armed poll timer
while the device is not connected (the timer armed by the successful connect
survives a transport drop: the poll task does not exist only-if Connected),
(b) a state with two armed poll timers while connected (a disconnect dispatch
reconnects before the old poll timer has fired, and connect arms a second
one; both will then re-arm themselves forever), and (c) a state with two
outstanding connect retries (each message dispatched while disconnected starts
another timed-out connect, each arming its own retry). -/
theorem c6_counterexample :
    (runEvents true initState
        [.discovered .success, .transportDrop]).connected = false ∧
    (runEvents true initState
        [.discovered .success, .transportDrop]).pendingPolls = 1 ∧
    (runEvents true initState
        [.discovered .success, .transportDrop, .message .success]).connected
      = true ∧
    (runEvents true initState
        [.discovered .success, .transportDrop, .message .success]).pendingPolls
      = 2 ∧
    (runEvents true initState
        [.message .timeout, .message .timeout]).pendingRetries = 2 := by
  decide

/-- C6 (amended): from the initial state, after any sequence of events, if the
device is connected then at least one poll timer is armed; the remaining
directions of the claimed invariant (at most one armed poll timer, no armed
poll timer while disconnected, at most one outstanding connect attempt) do not
hold. -/
theorem c6_connected_has_poll_task (manual_ip : Bool) (es : List Event) :
    pollInvariant (runEvents manual_ip initState es) := by
  have key : ∀ (es : List Event) (s : SysState), pollInvariant s →
      pollInvariant (runEvents manual_ip s es) := by
    intro es
    induction es with
    | nil => exact fun s hs => hs
    | cons e es ih =>
        exact fun s hs => ih _ (pollInvariant_step manual_ip s e hs)
  exact key es initState (by simp [pollInvariant, initState])

end DysonProm
